import Mathlib

/-!
Shallow embedding of the quantsage trading-simulation core, together with
proofs of the specification claims about it.

Conventions used throughout this development:
- Monetary amounts and prices are rationals (`ℚ`); the Python source uses
  floats, but every claim here is about exact arithmetic identities and
  order relations, which the rational model captures.
- Python strings used as enums (`'LONG'`, `'BUY'`, `'OPEN'`, ...) are kept
  as Lean `String`s so the comparisons mirror the source text.
- Timestamps are modelled as natural numbers (days or seconds as noted);
  the source only ever subtracts them.
- Division is the total division of `ℚ` (`x / 0 = 0`); every place this
  matters is guarded in the source exactly as it is guarded here, and the
  guards are reproduced.
- A Python path that raises an exception which the caller catches is
  modelled with `Except Unit`.
-/

namespace QuantSage

/-! ## Position (src/portfolio/position.py)

`Position.__init__` stores the fields below; `entry_time`, `exit_time` are
day-stamps.  `symbol`, `asset_type`, `strategy_id` are carried verbatim. -/

structure Position where
  position_id : ℕ
  symbol : String
  asset_type : String
  side : String          -- 'LONG' or 'SHORT'
  entry_price : ℚ
  quantity : ℚ
  entry_time : ℕ
  strategy_id : String
  stop_loss : Option ℚ
  take_profit : Option ℚ
  entry_commission : ℚ
  exit_commission : ℚ
  status : String        -- 'OPEN' or 'CLOSED'
  exit_price : Option ℚ
  exit_time : Option ℕ
  pnl_realized : ℚ
  pnl_unrealized : ℚ
  deriving DecidableEq, Repr

/-- Source `Position.__init__`: a freshly opened position. -/
def Position.mk' (position_id : ℕ) (symbol asset_type side : String)
    (entry_price quantity : ℚ) (entry_time : ℕ) (strategy_id : String)
    (stop_loss take_profit : Option ℚ) (commission : ℚ) : Position :=
  { position_id := position_id, symbol := symbol, asset_type := asset_type
    side := side, entry_price := entry_price, quantity := quantity
    entry_time := entry_time, strategy_id := strategy_id
    stop_loss := stop_loss, take_profit := take_profit
    entry_commission := commission, exit_commission := 0
    status := "OPEN", exit_price := none, exit_time := none
    pnl_realized := 0, pnl_unrealized := 0 }

/-- Source `Position.update_market_price`: updates `pnl_unrealized` and returns it;
a non-OPEN position is untouched and the call returns `0.0`. -/
def Position.update_market_price (p : Position) (current_price : ℚ) :
    Position × ℚ :=
  if p.status ≠ "OPEN" then (p, 0)
  else
    let price_diff := if p.side = "LONG" then current_price - p.entry_price
                      else p.entry_price - current_price
    let u := price_diff * p.quantity - p.entry_commission
    ({ p with pnl_unrealized := u }, u)

/-- Source `Position.close`: idempotent close; returns the realized P&L. -/
def Position.close (p : Position) (exit_price : ℚ) (exit_time : ℕ)
    (commission : ℚ) : Position × ℚ :=
  if p.status = "CLOSED" then (p, p.pnl_realized)
  else
    let price_diff := if p.side = "LONG" then exit_price - p.entry_price
                      else p.entry_price - exit_price
    let realized := price_diff * p.quantity - (p.entry_commission + commission)
    ({ p with exit_price := some exit_price, exit_time := some exit_time,
              exit_commission := commission, status := "CLOSED",
              pnl_realized := realized, pnl_unrealized := 0 }, realized)

/-- Source `Position.should_stop_loss`. -/
def Position.should_stop_loss (p : Position) (current_price : ℚ) : Bool :=
  match p.stop_loss with
  | none => false
  | some sl =>
    if p.status ≠ "OPEN" then false
    else if p.side = "LONG" then decide (current_price ≤ sl)
    else decide (sl ≤ current_price)

/-- Source `Position.should_take_profit`. -/
def Position.should_take_profit (p : Position) (current_price : ℚ) : Bool :=
  match p.take_profit with
  | none => false
  | some tp =>
    if p.status ≠ "OPEN" then false
    else if p.side = "LONG" then decide (tp ≤ current_price)
    else decide (current_price ≤ tp)

/-- Source `Position.get_value`. -/
def Position.get_value (p : Position) (current_price : ℚ) : ℚ :=
  if p.status ≠ "OPEN" then 0
  else if p.side = "LONG" then p.quantity * current_price
  else p.quantity * p.entry_price - p.quantity * current_price

/-! ## Portfolio manager cash legs (src/backtesting/portfolio.py)

`PortfolioManager._open_position` and `_close_position` adjust `self.cash`
by the amounts below; `_calculate_realized_pnl` is the backtest-side P&L. -/

/-- Cash delta applied by `_open_position` for a fill. -/
def openCashChange (side : String) (quantity price commission : ℚ) : ℚ :=
  if side = "BUY" then -(quantity * price + commission)
  else quantity * price - commission

/-- Cash delta applied by `_close_position` for a fill. -/
def closeCashChange (side : String) (quantity price commission : ℚ) : ℚ :=
  if side = "SELL" then quantity * price - commission
  else -(quantity * price + commission)

/-- Source `PortfolioManager._calculate_realized_pnl`. -/
def calcRealizedPnl (posSide : String) (posQty entryPrice entryComm : ℚ)
    (fillQty fillPrice fillComm : ℚ) : ℚ :=
  let quantity := min posQty fillQty
  let total_commission := entryComm + fillComm
  if posSide = "LONG" then (fillPrice - entryPrice) * quantity - total_commission
  else (entryPrice - fillPrice) * quantity - total_commission

/-! ## Execution engine (src/backtesting/execution.py) -/

/-- One OHLCV bar, as stored in the `current_bars` map. -/
structure Bar where
  op : ℚ
  high : ℚ
  low : ℚ
  close : ℚ
  volume : ℚ
  deriving DecidableEq, Repr

/-- The `slippage_params` block of the transaction-cost config
(defaults: `base_slippage = 0.001`, `volume_impact = 0.00001`). -/
structure SlippageParams where
  base_slippage : ℚ
  volume_impact : ℚ
  deriving DecidableEq, Repr

/-- Source `ExecutionEngine._calculate_slippage`.  `base_price` is the
conservative fill base (bar high for BUY, bar low for SELL). -/
def calculate_slippage (params : SlippageParams) (order_quantity : ℚ)
    (base_price : ℚ) (bar : Bar) : ℚ :=
  let base_slip := base_price * params.base_slippage
  let order_value := order_quantity * base_price
  let volume_slip :=
    if 0 < bar.volume then
      let bar_volume_value := bar.volume * bar.close
      let volume_pct := order_value / max bar_volume_value order_value
      base_price * (volume_pct * params.volume_impact)
    else 0
  let volatility_slip :=
    if 0 < bar.close then
      let bar_range := (bar.high - bar.low) / bar.close
      base_price * (bar_range * (1/2))
    else 0
  min (base_slip + volume_slip + volatility_slip) (base_price * (2/100))

/-- Source `ExecutionEngine._calculate_fill_price`: worst intrabar price plus
slippage against the trader. -/
def calculate_fill_price (params : SlippageParams) (side : String)
    (order_quantity : ℚ) (bar : Bar) : ℚ :=
  let base_price := if side = "BUY" then bar.high else bar.low
  let slip := calculate_slippage params order_quantity base_price bar
  if side = "BUY" then base_price + slip else base_price - slip

/-! ## Event bus (src/core/event_bus.py)

Events are abstracted to a type tag (the `EventType`) plus a payload
identifier; handlers are modelled as pure emitters: a handler maps the
event it receives to the list of events it publishes back to the bus
before returning (or before raising), together with a flag saying whether
it raised an exception.  `_dispatch_event` catches handler exceptions, so
the flag is observed and then discarded, exactly as in the source. -/

structure BusEvent where
  etype : ℕ
  payload : ℕ
  deriving DecidableEq, Repr

/-- A subscriber entry: the event type it is registered for, and the
handler behaviour (events it publishes, whether it raises). -/
def Subscriber : Type := ℕ × (BusEvent → List BusEvent × Bool)

/-- Bus state: the FIFO queue and the optional backtest history
(`event_history` is a list exactly when the bus is in backtest mode). -/
structure BusState where
  queue : List BusEvent
  history : Option (List BusEvent)
  deriving DecidableEq, Repr

/-- Source `EventBus.publish`: append to history (when capturing) and enqueue.
No handler is consulted. -/
def publish (s : BusState) (e : BusEvent) : BusState :=
  { queue := s.queue ++ [e],
    history := match s.history with
               | some h => some (h ++ [e])
               | none => none }

/-- Publish a list of events in order. -/
def publishAll (s : BusState) (es : List BusEvent) : BusState :=
  es.foldl publish s

/-- Run the handlers of one dispatched event in subscription order
(the body of `_dispatch_event`): each handler's published events are
enqueued; a raised exception is caught and dispatch continues.  Returns
the new bus state and the events published during the dispatch. -/
def runHandlers (e : BusEvent) : List (BusEvent → List BusEvent × Bool) →
    BusState → BusState × List BusEvent
  | [], s => (s, [])
  | h :: rest, s =>
    let r := h e
    -- r.2 is the exception flag: caught and ignored by _dispatch_event
    let s1 := publishAll s r.1
    let out := runHandlers e rest s1
    (out.1, r.1 ++ out.2)

/-- Source `EventBus._dispatch_event`: select the subscribers registered for the
event's type, in subscription order, and run them. -/
def dispatchEvent (subs : List Subscriber) (s : BusState) (e : BusEvent) :
    BusState × List BusEvent :=
  runHandlers e ((subs.filter (fun p => p.1 = e.etype)).map Prod.snd) s

/-- Source `EventBus.process_events`: repeatedly dequeue the front event and
dispatch it until the queue is empty.  The Python loop has no bound; the
`fuel` argument makes the recursion structural, and the theorems below
describe exactly the runs in which the loop finished (final queue empty)
or was truncated by fuel.  Returns (final state, events dispatched in
order, events published by handlers during the drain in order). -/
def processEvents (subs : List Subscriber) :
    ℕ → BusState → BusState × List BusEvent × List BusEvent
  | 0, s => (s, [], [])
  | fuel + 1, s =>
    match s.queue with
    | [] => (s, [], [])
    | e :: rest =>
      let step := dispatchEvent subs { s with queue := rest } e
      let out := processEvents subs fuel step.1
      (out.1, e :: out.2.1, step.2 ++ out.2.2)

/-! ## Risk manager (src/risk/risk_manager.py)

The mutable fields of `RiskManager` that signal processing reads or
writes are `portfolio_value`, `daily_start_equity`, `peak_equity` and
`circuit_breaker_active`; the config limits are fixed at construction.
The positions table consulted by `_check_symbol_risk`,
`_check_portfolio_risk` and `_calculate_position_value` is modelled as
the list of OPEN rows those queries return (the 60-second position cache
returns the same rows as the database whenever it is valid, so the model
reads the rows directly).  A `ZeroDivisionError` escaping to the
`try/except` of `_on_signal` is modelled with `Except Unit`. -/

structure RiskConfig where
  max_position_pct : ℚ      -- default 0.10
  min_stop_loss_pct : ℚ     -- 0.005
  max_stop_loss_pct : ℚ     -- 0.10
  max_symbol_exposure : ℚ   -- default 0.15
  max_portfolio_exposure : ℚ -- default 0.80
  daily_loss_limit : ℚ      -- default 0.05
  max_drawdown : ℚ          -- default 0.20
  deriving DecidableEq, Repr

/-- The default limits from the constructor. -/
def defaultRiskConfig : RiskConfig :=
  { max_position_pct := 1/10, min_stop_loss_pct := 1/200
    max_stop_loss_pct := 1/10, max_symbol_exposure := 3/20
    max_portfolio_exposure := 4/5, daily_loss_limit := 1/20
    max_drawdown := 1/5 }

structure RiskState where
  portfolio_value : ℚ
  daily_start_equity : ℚ
  peak_equity : ℚ
  circuit_breaker_active : Bool
  deriving DecidableEq, Repr

/-- One row of `SELECT ... FROM positions WHERE status='OPEN'`. -/
structure DbRow where
  symbol : String
  quantity : ℚ
  entry_price : ℚ
  deriving DecidableEq, Repr

/-- A `SignalEvent` as read by the risk manager: `quantity_pct` is
`metadata.get('quantity', 0)` and `stop_loss` is
`metadata.get('stop_loss')`. -/
structure SignalEvent where
  symbol : String
  asset_type : String
  strategy_id : String
  signal_type : String   -- 'BUY' / 'SELL' / 'HOLD' / 'CLOSE' / ...
  confidence : ℚ
  price : ℚ
  quantity_pct : ℚ
  stop_loss : Option ℚ
  deriving DecidableEq, Repr

/-- Structured rejection reasons (the source formats these as strings;
each carries the numbers interpolated into the message). -/
inductive RejectReason where
  | breakerActive
  | dailyLoss (pct : ℚ)
  | drawdownBreach (pct : ℚ)
  | positionSize (pct : ℚ)
  | stopMissing
  | stopTooTight (pct : ℚ)
  | stopTooWide (pct : ℚ)
  | symbolExposure (pct : ℚ)
  | portfolioExposure (pct : ℚ)
  | processingError
  deriving DecidableEq, Repr

inductive Severity where
  | LOW | MEDIUM | HIGH | CRITICAL
  deriving DecidableEq, Repr

/-- The order produced by `_create_order_event` (the generated uuid and
wall-clock timestamp are not modelled). -/
structure OrderEvt where
  symbol : String
  side : String
  order_type : String
  quantity : ℚ
  deriving DecidableEq, Repr

/-- An event published by `_on_signal`. -/
inductive RiskPub where
  | order (o : OrderEvt)
  | alert (severity : Severity) (reason : Option RejectReason)
  deriving DecidableEq, Repr

/-- Whether a published event is an `OrderEvent`. -/
def RiskPub.isOrder : RiskPub → Bool
  | .order _ => true
  | .alert _ _ => false

/-- Source `RiskManager._check_circuit_breakers`: returns the state (breaker
possibly tripped, peak possibly advanced), the `trading_allowed` flag and
the reason. -/
def checkCircuitBreakers (cfg : RiskConfig) (st : RiskState) :
    RiskState × Bool × Option RejectReason :=
  if st.circuit_breaker_active then (st, false, some .breakerActive)
  else
    let cv := st.portfolio_value
    let daily_pnl_pct := (cv - st.daily_start_equity) / st.daily_start_equity
    if 0 < st.daily_start_equity ∧ daily_pnl_pct < -cfg.daily_loss_limit then
      ({ st with circuit_breaker_active := true }, false,
       some (.dailyLoss daily_pnl_pct))
    else
      let drawdown_pct := (st.peak_equity - cv) / st.peak_equity
      if 0 < st.peak_equity ∧ cfg.max_drawdown < drawdown_pct then
        ({ st with circuit_breaker_active := true }, false,
         some (.drawdownBreach drawdown_pct))
      else if st.peak_equity < cv then
        ({ st with peak_equity := cv }, true, none)
      else (st, true, none)

/-- Source `RiskManager._check_position_risk`.  When `signal.price` is zero and
a stop-loss is present, the Python division raises `ZeroDivisionError`,
which escapes to `_on_signal`'s handler: modelled as `.error`. -/
def checkPositionRisk (cfg : RiskConfig) (sig : SignalEvent) :
    Except Unit (Bool × Option RejectReason) :=
  if cfg.max_position_pct < sig.quantity_pct then
    .ok (false, some (.positionSize sig.quantity_pct))
  else if sig.signal_type = "BUY" ∨ sig.signal_type = "SELL" then
    match sig.stop_loss with
    | none => .ok (false, some .stopMissing)
    | some sl =>
      if sig.price = 0 then .error ()
      else
        let stop_pct := |sig.price - sl| / sig.price
        if stop_pct < cfg.min_stop_loss_pct then
          .ok (false, some (.stopTooTight stop_pct))
        else if cfg.max_stop_loss_pct < stop_pct then
          .ok (false, some (.stopTooWide stop_pct))
        else .ok (true, none)
  else .ok (true, none)

/-- The aggregate notional the symbol-risk query computes:
`sum(quantity * entry_price)` over the OPEN rows for the symbol. -/
def symbolExposureSum (db : List DbRow) (symbol : String) : ℚ :=
  ((db.filter (fun r => r.symbol = symbol)).map
    (fun r => r.quantity * r.entry_price)).sum

/-- Source `RiskManager._check_symbol_risk`. -/
def checkSymbolRisk (cfg : RiskConfig) (portfolio_value : ℚ)
    (db : List DbRow) (symbol : String) (new_exposure : ℚ) :
    Bool × Option RejectReason :=
  let existing := symbolExposureSum db symbol
  let total := existing + new_exposure
  let exposure_pct := if 0 < portfolio_value then total / portfolio_value else 0
  if cfg.max_symbol_exposure < exposure_pct then
    (false, some (.symbolExposure exposure_pct))
  else (true, none)

/-- Source `RiskManager._calculate_position_value`: entry price of the first
OPEN row for the symbol (`LIMIT 1`) times the quantity, else `0.0`. -/
def calcPositionValue (db : List DbRow) (symbol : String) (quantity : ℚ) : ℚ :=
  match db.find? (fun r => r.symbol = symbol) with
  | some r => quantity * r.entry_price
  | none => 0

/-- Source `RiskManager._check_portfolio_risk`. -/
def checkPortfolioRisk (cfg : RiskConfig) (portfolio_value : ℚ)
    (db : List DbRow) (new_position_value : ℚ) : Bool × Option RejectReason :=
  let total := (db.map (fun p => calcPositionValue db p.symbol p.quantity)).sum
      + new_position_value
  let exposure_pct := if 0 < portfolio_value then total / portfolio_value else 0
  if cfg.max_portfolio_exposure < exposure_pct then
    (false, some (.portfolioExposure exposure_pct))
  else (true, none)

/-- Source `RiskManager._create_order_event`: sizes the order as
`quantity_pct * portfolio_value / signal.price` (a zero price raises
`ZeroDivisionError`, caught by `_on_signal`'s handler). -/
def createOrderEvent (st : RiskState) (sig : SignalEvent) :
    Except Unit OrderEvt :=
  if sig.price = 0 then .error ()
  else
    .ok { symbol := sig.symbol,
          side := if sig.signal_type = "BUY" ∨ sig.signal_type = "SELL"
                  then sig.signal_type else "SELL",
          order_type := "MARKET",
          quantity := sig.quantity_pct * st.portfolio_value / sig.price }

/-- The result of one `_on_signal` call: the new risk-manager state, the
events published on the bus (in order), and the alerts persisted through
`_log_risk_event` (severity and reason). -/
structure RiskOut where
  state : RiskState
  published : List RiskPub
  logged : List (Severity × Option RejectReason)
  deriving DecidableEq, Repr

/-- Source `RiskManager._on_signal`.  A `'CLOSE'` signal skips validation; the
four checks run in order with short-circuit; an exception reaching the
outer `try` publishes a HIGH alert without persisting it. -/
def onSignal (cfg : RiskConfig) (db : List DbRow) (st : RiskState)
    (sig : SignalEvent) : RiskOut :=
  if sig.signal_type = "CLOSE" then
    match createOrderEvent st sig with
    | .ok o => ⟨st, [.order o], []⟩
    | .error _ => ⟨st, [.alert .HIGH (some .processingError)], []⟩
  else
    let cb := checkCircuitBreakers cfg st
    let st1 := cb.1
    if cb.2.1 = false then
      ⟨st1, [.alert .CRITICAL cb.2.2], [(.CRITICAL, cb.2.2)]⟩
    else
      let position_value := sig.quantity_pct * st1.portfolio_value
      match checkPositionRisk cfg sig with
      | .error _ => ⟨st1, [.alert .HIGH (some .processingError)], []⟩
      | .ok pr =>
        if pr.1 = false then
          ⟨st1, [.alert .HIGH pr.2], [(.HIGH, pr.2)]⟩
        else
          let sr := checkSymbolRisk cfg st1.portfolio_value db sig.symbol
              position_value
          if sr.1 = false then
            ⟨st1, [.alert .MEDIUM sr.2], [(.MEDIUM, sr.2)]⟩
          else
            let por := checkPortfolioRisk cfg st1.portfolio_value db
                position_value
            if por.1 = false then
              ⟨st1, [.alert .MEDIUM por.2], [(.MEDIUM, por.2)]⟩
            else
              match createOrderEvent st1 sig with
              | .ok o => ⟨st1, [.order o], []⟩
              | .error _ => ⟨st1, [.alert .HIGH (some .processingError)], []⟩

/-- Source `RiskManager.reset_circuit_breaker`: the only operation that clears
the breaker. -/
def resetCircuitBreaker (st : RiskState) : RiskState :=
  { st with circuit_breaker_active := false }

/-! ## Performance calculator (src/backtesting/metrics.py)

The equity curve is a list of `(timestamp, value)` pairs with strictly
increasing day-stamps, as produced by the orchestrator.  Floating-point
primitives with no rational counterpart are abstracted into `NumPrims`:
`sqrt` models `np.sqrt` / pandas `std`'s square root, `rpow x y` models
the float power `x ** y`, and `monthOf` maps a timestamp to its calendar
month bucket (pandas `resample('M')`).  Every branch, guard and formula
below follows the source; only those three primitives are parameters. -/

structure NumPrims where
  sqrt : ℚ → ℚ
  rpow : ℚ → ℚ → ℚ
  monthOf : ℕ → ℕ

/-- Helper for the running maximum: fold with the maximum seen so far. -/
def runningMaxAux : ℚ → List ℚ → List ℚ
  | _, [] => []
  | m, x :: xs => max m x :: runningMaxAux (max m x) xs

/-- Running maximum of a series (`expanding().max()`). -/
def runningMax : List ℚ → List ℚ
  | [] => []
  | v :: vs => runningMaxAux v (v :: vs)

/-- Minimum of a series, with a default for the empty series. -/
def listMinD (l : List ℚ) (d : ℚ) : ℚ :=
  match l with
  | [] => d
  | v :: vs => vs.foldl min v

/-- Maximum of a series, with a default for the empty series. -/
def listMaxD (l : List ℚ) (d : ℚ) : ℚ :=
  match l with
  | [] => d
  | v :: vs => vs.foldl max v

/-- Mean of a series (`0` for the empty series, which the source never
takes). -/
def listMean (l : List ℚ) : ℚ := l.sum / l.length

/-- Source `series.pct_change().dropna()`: successive relative changes. -/
def pctChange (vs : List ℚ) : List ℚ :=
  (vs.zip vs.tail).map (fun p => (p.2 - p.1) / p.1)

/-- Sample standard deviation (pandas `std`, ddof = 1), through the
abstract square root. -/
def sampleStd (prims : NumPrims) (l : List ℚ) : ℚ :=
  let m := listMean l
  prims.sqrt (((l.map (fun x => (x - m) ^ 2)).sum) / ((l.length : ℚ) - 1))

/-- The drawdown-percentage series `(equity - running_max)/running_max`. -/
def drawdownPctSeries (vs : List ℚ) : List ℚ :=
  (vs.zip (runningMax vs)).map (fun p => (p.1 - p.2) / p.2)

/-- The dollar drawdown series `equity - running_max`. -/
def drawdownSeries (vs : List ℚ) : List ℚ :=
  (vs.zip (runningMax vs)).map (fun p => p.1 - p.2)

/-- Source `PerformanceCalculator._calculate_max_drawdown` on an equity curve of
`(timestamp, value)` pairs: returns `(max_dd_pct, max_dd_dollars,
duration_days)`.  `idxmin`/`idxmax` return the first label attaining the
extremum; `.loc[:i]` and `.loc[i:]` are the inclusive label slices of the
sorted index. -/
def maxDrawdown (curve : List (ℕ × ℚ)) : ℚ × ℚ × ℤ :=
  let ts := curve.map Prod.fst
  let vs := curve.map Prod.snd
  let rm := runningMax vs
  let ddp := drawdownPctSeries vs
  let max_dd_pct := listMinD ddp 0
  let max_dd_dollars := listMinD (drawdownSeries vs) 0
  if max_dd_pct = 0 then (0, 0, 0)
  else
    let max_dd_idx := (((ts.zip ddp).find? (fun p => p.2 = max_dd_pct)).map
      Prod.fst).getD 0
    let rmPairs := ts.zip rm
    let upToTrough := rmPairs.filter (fun p => p.1 ≤ max_dd_idx)
    let peakVal := listMaxD (upToTrough.map Prod.snd) 0
    let peak_idx := ((upToTrough.find? (fun p => p.2 = peakVal)).map
      Prod.fst).getD 0
    let rmAtTrough := (((rmPairs.find? (fun p => p.1 = max_dd_idx)).map
      Prod.snd).getD 0)
    let recovery := (curve.filter (fun p => max_dd_idx ≤ p.1)).find?
      (fun p => rmAtTrough ≤ p.2)
    match recovery with
    | some r => (max_dd_pct, max_dd_dollars, (r.1 : ℤ) - (peak_idx : ℤ))
    | none =>
      (max_dd_pct, max_dd_dollars,
       ((ts.getLast?.getD 0 : ℕ) : ℤ) - (peak_idx : ℤ))

structure ReturnsMetrics where
  total_return : ℚ
  total_return_pct : ℚ
  cagr : ℚ
  annualized_return : ℚ
  deriving DecidableEq, Repr

/-- The `risk_adjusted` block; the source's dict keys end in `_ratio`. -/
structure RiskAdjustedMetrics where
  sharpe : ℚ
  sortino : ℚ
  calmar : ℚ
  volatility : ℚ
  deriving DecidableEq, Repr

structure DrawdownMetrics where
  max_drawdown : ℚ
  max_drawdown_pct : ℚ
  avg_drawdown : ℚ
  max_dd_duration_days : ℤ
  deriving DecidableEq, Repr

/-- The `trades` block.  `profit_factor` is `Option ℚ` with `none`
standing for the source's `float('inf')`. -/
structure TradeStatsMetrics where
  total_trades : ℕ
  winning_trades : ℕ
  losing_trades : ℕ
  win_rate : ℚ
  profit_factor : Option ℚ
  expectancy : ℚ
  avg_win : ℚ
  avg_loss : ℚ
  max_win : ℚ
  max_loss : ℚ
  avg_trade_duration_hours : ℚ
  deriving DecidableEq, Repr

/-- The `monthly` block; `monthly_returns` is the per-month dict the
non-degenerate branch adds (empty in the degenerate branches). -/
structure MonthlyMetrics where
  best_month : ℚ
  worst_month : ℚ
  avg_month : ℚ
  positive_months_pct : ℚ
  monthly_returns : List (ℕ × ℚ)
  deriving DecidableEq, Repr

structure Metrics where
  returns : ReturnsMetrics
  risk_adjusted : RiskAdjustedMetrics
  drawdown : DrawdownMetrics
  trades : TradeStatsMetrics
  monthly : MonthlyMetrics
  deriving DecidableEq, Repr

/-- One row of the trades list: `status`, `pnl_realized` (default 0) and
the optional entry/exit timestamps in seconds. -/
structure TradeRec where
  status : String
  pnl_realized : ℚ
  entry_time : Option ℕ
  exit_time : Option ℕ
  deriving DecidableEq, Repr

/-- The all-zero trades block returned for zero closed trades. -/
def zeroTradeStats : TradeStatsMetrics :=
  { total_trades := 0, winning_trades := 0, losing_trades := 0
    win_rate := 0, profit_factor := some 0, expectancy := 0
    avg_win := 0, avg_loss := 0, max_win := 0, max_loss := 0
    avg_trade_duration_hours := 0 }

/-- Source `PerformanceCalculator._calculate_trade_stats`. -/
def calcTradeStats (trades : List TradeRec) : TradeStatsMetrics :=
  let closed := trades.filter (fun t => t.status = "CLOSED")
  if closed = [] then zeroTradeStats
  else
    let pnls := closed.map (fun t => t.pnl_realized)
    let winners := pnls.filter (fun p => 0 < p)
    let losers := pnls.filter (fun p => p < 0)
    let total_trades := closed.length
    let win_rate := (winners.length : ℚ) / total_trades
    let avg_win := if winners = [] then 0 else listMean winners
    let avg_loss := if losers = [] then 0 else listMean losers
    let max_win := listMaxD winners 0
    let max_loss := listMinD losers 0
    let total_wins := winners.sum
    let total_losses := |losers.sum|
    let profit_factor := if 0 < total_losses then some (total_wins / total_losses)
                         else none
    let expectancy := win_rate * avg_win - (1 - win_rate) * |avg_loss|
    let durations := closed.filterMap (fun t =>
      match t.entry_time, t.exit_time with
      | some a, some b => some ((((b : ℤ) - (a : ℤ) : ℤ) : ℚ) / 3600)
      | _, _ => none)
    let avg_duration := if durations = [] then 0 else listMean durations
    { total_trades := total_trades, winning_trades := winners.length
      losing_trades := losers.length, win_rate := win_rate
      profit_factor := profit_factor, expectancy := expectancy
      avg_win := avg_win, avg_loss := avg_loss
      max_win := max_win, max_loss := max_loss
      avg_trade_duration_hours := avg_duration }

/-- Source `PerformanceCalculator._calculate_returns`.  `start_date`/`end_date`
are day-stamps, so `(end_date - start_date).days` is their difference. -/
def calcReturns (prims : NumPrims) (curve : List (ℕ × ℚ))
    (initial_capital : ℚ) (start_date end_date : ℕ) : ReturnsMetrics :=
  let vs := curve.map Prod.snd
  let final_value := vs.getLast?.getD 0
  let total_return := final_value - initial_capital
  let years : ℚ := ((end_date - start_date : ℕ) : ℚ) / (1461/4)
  let cagr := if 0 < years then prims.rpow (final_value / initial_capital)
      (1 / years) - 1 else 0
  let dr := pctChange vs
  let annualized := if 0 < dr.length then listMean dr * 252 else 0
  { total_return := total_return
    total_return_pct := total_return / initial_capital
    cagr := cagr, annualized_return := annualized }

/-- Source `PerformanceCalculator._calculate_sharpe_ratio`. -/
def calcSharpe (prims : NumPrims) (risk_free_rate : ℚ)
    (daily_returns : List ℚ) : ℚ :=
  let daily_rf := risk_free_rate / 252
  let excess := daily_returns.map (fun x => x - daily_rf)
  if sampleStd prims excess = 0 ∨ excess.length = 0 then 0
  else listMean excess / sampleStd prims excess * prims.sqrt 252

/-- Source `PerformanceCalculator._calculate_sortino_ratio`. -/
def calcSortino (prims : NumPrims) (risk_free_rate : ℚ)
    (daily_returns : List ℚ) : ℚ :=
  let daily_rf := risk_free_rate / 252
  let excess := daily_returns.map (fun x => x - daily_rf)
  let downside := excess.filter (fun x => x < 0)
  if downside.length = 0 ∨ sampleStd prims downside = 0 then 0
  else listMean excess / sampleStd prims downside * prims.sqrt 252

/-- Source `PerformanceCalculator._calculate_calmar_ratio`. -/
def calcCalmar (prims : NumPrims) (curve : List (ℕ × ℚ))
    (initial_capital : ℚ) (start_date end_date : ℕ) : ℚ :=
  let years : ℚ := ((end_date - start_date : ℕ) : ℚ) / (1461/4)
  if 0 < years then
    let vs := curve.map Prod.snd
    let cagr := prims.rpow (vs.getLast?.getD 0 / initial_capital)
        (1 / years) - 1
    let max_dd_pct := (maxDrawdown curve).1
    if max_dd_pct = 0 then 0 else cagr / |max_dd_pct|
  else 0

/-- Source `PerformanceCalculator._calculate_risk_adjusted`. -/
def calcRiskAdjusted (prims : NumPrims) (curve : List (ℕ × ℚ))
    (initial_capital : ℚ) (start_date end_date : ℕ)
    (risk_free_rate : ℚ) : RiskAdjustedMetrics :=
  let dr := pctChange (curve.map Prod.snd)
  if dr.length < 2 then ⟨0, 0, 0, 0⟩
  else
    { sharpe := calcSharpe prims risk_free_rate dr
      sortino := calcSortino prims risk_free_rate dr
      calmar := calcCalmar prims curve initial_capital start_date end_date
      volatility := sampleStd prims dr * prims.sqrt 252 }

/-- Source `PerformanceCalculator._calculate_drawdown`. -/
def calcDrawdownMetrics (curve : List (ℕ × ℚ)) : DrawdownMetrics :=
  let out := maxDrawdown curve
  let negs := (drawdownPctSeries (curve.map Prod.snd)).filter (fun x => x < 0)
  { max_drawdown := out.2.1, max_drawdown_pct := out.1
    avg_drawdown := if 0 < negs.length then listMean negs else 0
    max_dd_duration_days := out.2.2 }

/-- Source `PerformanceCalculator._calculate_monthly_returns`: last equity value
of each month (months in chronological order of appearance; a month with
no bars contributes no row to the model), then successive changes. -/
def calcMonthly (prims : NumPrims) (curve : List (ℕ × ℚ)) : MonthlyMetrics :=
  let months := (curve.map (fun p => prims.monthOf p.1)).dedup
  let monthly_equity := months.map (fun m =>
    ((curve.filter (fun p => prims.monthOf p.1 = m)).map Prod.snd).getLast?.getD 0)
  let mr := pctChange monthly_equity
  if mr.length = 0 then ⟨0, 0, 0, 0, []⟩
  else
    { best_month := listMaxD mr 0, worst_month := listMinD mr 0
      avg_month := listMean mr
      positive_months_pct := ((mr.filter (fun x => 0 < x)).length : ℚ) / mr.length
      monthly_returns := months.tail.zip mr }

/-- Source `PerformanceCalculator._empty_metrics`. -/
def emptyMetrics : Metrics :=
  { returns := ⟨0, 0, 0, 0⟩
    risk_adjusted := ⟨0, 0, 0, 0⟩
    drawdown := ⟨0, 0, 0, 0⟩
    trades := zeroTradeStats
    monthly := ⟨0, 0, 0, 0, []⟩ }

/-- Source `PerformanceCalculator.calculate_all`. -/
def calculateAll (prims : NumPrims) (curve : List (ℕ × ℚ))
    (trades : List TradeRec) (initial_capital : ℚ)
    (start_date end_date : ℕ) (risk_free_rate : ℚ) : Metrics :=
  if curve.length < 2 then emptyMetrics
  else
    { returns := calcReturns prims curve initial_capital start_date end_date
      risk_adjusted := calcRiskAdjusted prims curve initial_capital
          start_date end_date risk_free_rate
      drawdown := calcDrawdownMetrics curve
      trades := calcTradeStats trades
      monthly := calcMonthly prims curve }

/-! ## Theorems -/

/-- Slippage is never negative when the order and bar data are
well-formed and the configured rates are nonnegative. -/
lemma slippage_nonneg (params : SlippageParams) (q base : ℚ) (bar : Bar)
    (hbs : 0 ≤ params.base_slippage) (hvi : 0 ≤ params.volume_impact)
    (hbase : 0 ≤ base) (hq : 0 ≤ q) (hlh : bar.low ≤ bar.high) :
    0 ≤ calculate_slippage params q base bar := by
  unfold calculate_slippage
  have hov : 0 ≤ q * base := mul_nonneg hq hbase
  refine le_min (add_nonneg (add_nonneg (mul_nonneg hbase hbs) ?_) ?_)
    (mul_nonneg hbase (by norm_num))
  · split
    · exact mul_nonneg hbase (mul_nonneg
        (div_nonneg hov (le_trans hov (le_max_right _ _))) hvi)
    · exact le_refl 0
  · split
    · next hc =>
      exact mul_nonneg hbase (mul_nonneg
        (div_nonneg (sub_nonneg.mpr hlh) (le_of_lt hc)) (by norm_num))
    · exact le_refl 0

/-- C1: a LONG position opened by a BUY fill of 1.0 at 50000 with
commission 300 and closed by a SELL fill of 1.0 at 52000 with commission
312 realizes exactly 1388; the opening BUY leg changes cash by
`-(quantity*price + commission)` and the closing SELL leg by
`+(quantity*price - commission)`; and in general closing an open
position returns `sign*(exit - entry)*quantity - (entryCommission +
exitCommission)` with sign +1 for LONG and -1 for SHORT. -/
theorem position_close_pnl_and_cash_legs :
    (∀ (p : Position) (exit_price : ℚ) (exit_time : ℕ) (commission : ℚ),
      p.status = "OPEN" →
      (p.close exit_price exit_time commission).2 =
        (if p.side = "LONG" then (1 : ℚ) else -1) *
          (exit_price - p.entry_price) * p.quantity -
          (p.entry_commission + commission)) ∧
    (Position.close
      (Position.mk' 1 "BTC/USDT" "CRYPTO" "LONG" 50000 1 0 "strat"
        none none 300) 52000 5 312).2 = 1388 ∧
    openCashChange "BUY" 1 50000 300 = -50300 ∧
    closeCashChange "SELL" 1 52000 312 = 51688 ∧
    calcRealizedPnl "LONG" 1 50000 300 1 52000 312 = 1388 := by
  have hoc : ¬ ("OPEN" : String) = "CLOSED" := by decide
  refine ⟨?_, by norm_num [Position.close, Position.mk', hoc],
    by norm_num [openCashChange], by norm_num [closeCashChange],
    by norm_num [calcRealizedPnl]⟩
  intro p e t c h
  simp only [Position.close, h, hoc, if_false]
  by_cases hs : p.side = "LONG" <;> simp [hs]

/-- Witness for `position_close_pnl_and_cash_legs`: the general close
formula applied to a concrete open SHORT position. -/
theorem position_close_pnl_witness :
    (Position.mk' 2 "ETH/USDT" "CRYPTO" "SHORT" 3000 2 0 "strat"
      none none 9).status = "OPEN" ∧
    ((Position.mk' 2 "ETH/USDT" "CRYPTO" "SHORT" 3000 2 0 "strat"
        none none 9).close 2900 7 11).2 =
      (if (Position.mk' 2 "ETH/USDT" "CRYPTO" "SHORT" 3000 2 0 "strat"
          none none 9).side = "LONG" then (1 : ℚ) else -1) *
        ((2900 : ℚ) - (Position.mk' 2 "ETH/USDT" "CRYPTO" "SHORT" 3000 2 0
          "strat" none none 9).entry_price) *
        (Position.mk' 2 "ETH/USDT" "CRYPTO" "SHORT" 3000 2 0 "strat"
          none none 9).quantity -
        ((Position.mk' 2 "ETH/USDT" "CRYPTO" "SHORT" 3000 2 0 "strat"
          none none 9).entry_commission + 11) :=
  ⟨rfl, position_close_pnl_and_cash_legs.1
    (Position.mk' 2 "ETH/USDT" "CRYPTO" "SHORT" 3000 2 0 "strat"
      none none 9) 2900 7 11 rfl⟩

/-- C2: against a well-formed bar, a BUY fills at or above the bar high
and a SELL at or below the bar low; the applied slippage is
`min(base + volumeImpact + volatilityImpact, 2% of base price)` and is
never negative. -/
theorem conservative_fill_slippage_bounds :
    ∀ (params : SlippageParams) (bar : Bar) (q : ℚ),
      0 ≤ params.base_slippage → 0 ≤ params.volume_impact →
      0 ≤ bar.low → bar.low ≤ bar.high → 0 ≤ bar.close →
      0 ≤ bar.volume → 0 < q →
      bar.high ≤ calculate_fill_price params "BUY" q bar ∧
      calculate_fill_price params "SELL" q bar ≤ bar.low ∧
      (∀ base_price : ℚ, 0 ≤ base_price →
        0 ≤ calculate_slippage params q base_price bar ∧
        calculate_slippage params q base_price bar =
          min (base_price * params.base_slippage +
            (if 0 < bar.volume then
              base_price * (q * base_price /
                max (bar.volume * bar.close) (q * base_price) *
                params.volume_impact)
             else 0) +
            (if 0 < bar.close then
              base_price * ((bar.high - bar.low) / bar.close * (1/2))
             else 0))
            (base_price * (2/100))) := by
  intro params bar q hbs hvi hl hlh hc hv hq
  have hh : (0 : ℚ) ≤ bar.high := le_trans hl hlh
  refine ⟨?_, ?_, ?_⟩
  · have := slippage_nonneg params q bar.high bar hbs hvi hh (le_of_lt hq) hlh
    simp only [calculate_fill_price, if_pos rfl]
    norm_num
    exact this
  · have := slippage_nonneg params q bar.low bar hbs hvi hl (le_of_lt hq) hlh
    have hne : ("SELL" : String) ≠ "BUY" := by decide
    simp only [calculate_fill_price, if_neg hne]
    exact sub_le_self _ this
  · intro base hbase
    exact ⟨slippage_nonneg params q base bar hbs hvi hbase (le_of_lt hq) hlh,
      rfl⟩

/-- Witness for `conservative_fill_slippage_bounds` on a concrete bar and
order. -/
theorem conservative_fill_slippage_witness :
    ((0 : ℚ) ≤ 1/1000 ∧ (0 : ℚ) ≤ 1/100000 ∧ (0 : ℚ) ≤ 49500 ∧
      (49500 : ℚ) ≤ 51000 ∧ (0 : ℚ) ≤ 50500 ∧ (0 : ℚ) ≤ 100 ∧
      (0 : ℚ) < 2) ∧
    (51000 : ℚ) ≤ calculate_fill_price ⟨1/1000, 1/100000⟩ "BUY" 2
      ⟨50000, 51000, 49500, 50500, 100⟩ :=
  ⟨by norm_num,
   (conservative_fill_slippage_bounds ⟨1/1000, 1/100000⟩
     ⟨50000, 51000, 49500, 50500, 100⟩ 2 (by norm_num) (by norm_num)
     (by norm_num) (by norm_num) (by norm_num) (by norm_num)
     (by norm_num)).1⟩

/-- C10: a CLOSED position is inert: `update_market_price` returns the
position unchanged with `0.0`, `get_value` returns `0.0`, and neither
stop-loss nor take-profit can trigger. -/
theorem closed_position_inert :
    ∀ (p : Position) (price : ℚ), p.status = "CLOSED" →
      p.update_market_price price = (p, 0) ∧
      p.get_value price = 0 ∧
      p.should_stop_loss price = false ∧
      p.should_take_profit price = false := by
  intro p price h
  have hne : p.status ≠ "OPEN" := by rw [h]; decide
  refine ⟨?_, ?_, ?_, ?_⟩
  · simp [Position.update_market_price, hne]
  · simp [Position.get_value, hne]
  · cases hsl : p.stop_loss <;> simp [Position.should_stop_loss, hsl, hne]
  · cases htp : p.take_profit <;> simp [Position.should_take_profit, htp, hne]

/-- Witness for `closed_position_inert` on a concrete closed position. -/
theorem closed_position_inert_witness :
    ((Position.mk' 3 "BTC/USDT" "CRYPTO" "LONG" 100 1 0 "strat"
        (some 90) (some 130) 2).close 120 9 3).1.status = "CLOSED" ∧
    (((Position.mk' 3 "BTC/USDT" "CRYPTO" "LONG" 100 1 0 "strat"
        (some 90) (some 130) 2).close 120 9 3).1.get_value 50 = 0) :=
  ⟨rfl, (closed_position_inert
    ((Position.mk' 3 "BTC/USDT" "CRYPTO" "LONG" 100 1 0 "strat"
      (some 90) (some 130) 2).close 120 9 3).1 50 rfl).2.1⟩

/-- Every `_on_signal` call publishes exactly one event (an order or an
alert), in every branch including the exception handler. -/
lemma onSignal_publishes_one (cfg : RiskConfig) (db : List DbRow)
    (st : RiskState) (sig : SignalEvent) :
    (onSignal cfg db st sig).published.length = 1 := by
  simp only [onSignal]
  split
  · split <;> rfl
  · split
    · rfl
    · split
      · rfl
      · split
        · rfl
        · split
          · rfl
          · split
            · rfl
            · split <;> rfl

/-- C3: once the circuit breaker is active, every non-CLOSE signal is
rejected with a CRITICAL alert that is persisted and no order is
published, the state (hence the breaker flag) is unchanged no matter how
the portfolio value has recovered; no `_on_signal` call ever clears the
flag, and the manual reset is the operation that does. -/
theorem circuit_breaker_sticky :
    (∀ (cfg : RiskConfig) (db : List DbRow) (st : RiskState)
       (sig : SignalEvent),
       st.circuit_breaker_active = true → sig.signal_type ≠ "CLOSE" →
       onSignal cfg db st sig =
         ⟨st, [.alert .CRITICAL (some .breakerActive)],
          [(.CRITICAL, some .breakerActive)]⟩) ∧
    (∀ (cfg : RiskConfig) (db : List DbRow) (st : RiskState)
       (sig : SignalEvent),
       st.circuit_breaker_active = true →
       (onSignal cfg db st sig).state.circuit_breaker_active = true) ∧
    (∀ st : RiskState,
       (resetCircuitBreaker st).circuit_breaker_active = false) := by
  have key : ∀ (cfg : RiskConfig) (db : List DbRow) (st : RiskState)
      (sig : SignalEvent),
      st.circuit_breaker_active = true → sig.signal_type ≠ "CLOSE" →
      onSignal cfg db st sig =
        ⟨st, [.alert .CRITICAL (some .breakerActive)],
         [(.CRITICAL, some .breakerActive)]⟩ := by
    intro cfg db st sig hb hc
    simp [onSignal, checkCircuitBreakers, hb, hc]
  refine ⟨key, ?_, fun st => rfl⟩
  intro cfg db st sig hb
  by_cases hc : sig.signal_type = "CLOSE"
  · simp only [onSignal, hc, if_pos rfl]
    cases createOrderEvent st sig <;> simpa using hb
  · rw [key cfg db st sig hb hc]
    exact hb

/-- Witness for `circuit_breaker_sticky`: a tripped breaker rejects a
concrete LONG-entry signal even though the portfolio has fully
recovered. -/
theorem circuit_breaker_sticky_witness :
    ((⟨120000, 100000, 100000, true⟩ : RiskState).circuit_breaker_active
        = true ∧
      (⟨"BTC/USDT", "CRYPTO", "s1", "BUY", 9/10, 50000, 1/20,
        some 49000⟩ : SignalEvent).signal_type ≠ "CLOSE") ∧
    onSignal defaultRiskConfig [] ⟨120000, 100000, 100000, true⟩
        ⟨"BTC/USDT", "CRYPTO", "s1", "BUY", 9/10, 50000, 1/20, some 49000⟩ =
      ⟨⟨120000, 100000, 100000, true⟩,
       [.alert .CRITICAL (some .breakerActive)],
       [(.CRITICAL, some .breakerActive)]⟩ :=
  ⟨⟨rfl, by decide⟩,
   circuit_breaker_sticky.1 defaultRiskConfig [] _ _ rfl (by decide)⟩

/-- C4 counterexample: with the breaker tripped, a signal whose direction
is `'EXIT'` is *not* exempt from validation: it is rejected with a
CRITICAL alert and no order is published, contradicting the claim that
CLOSE-or-EXIT signals always bypass the checks and yield an order. -/
theorem exit_bypass_cex :
    (onSignal defaultRiskConfig [] ⟨100000, 100000, 100000, true⟩
       ⟨"BTC/USDT", "CRYPTO", "s1", "EXIT", 1/2, 50000, 1/20, some 49000⟩
      ).published = [.alert .CRITICAL (some .breakerActive)] ∧
    ((onSignal defaultRiskConfig [] ⟨100000, 100000, 100000, true⟩
       ⟨"BTC/USDT", "CRYPTO", "s1", "EXIT", 1/2, 50000, 1/20, some 49000⟩
      ).published.all (fun e => !e.isOrder)) = true := by
  constructor <;>
    norm_num [onSignal, checkCircuitBreakers, RiskPub.isOrder,
      show ¬ ("EXIT" : String) = "CLOSE" from by decide]

/-- C4 amended: only signals whose direction is exactly `'CLOSE'` skip
the four risk checks and are turned into an order directly (their state
is untouched, even with the breaker active); a signal with direction
`'EXIT'` runs the full validation chain — under an active breaker it is
rejected like any other non-CLOSE signal. -/
theorem close_only_bypass :
    (∀ (cfg : RiskConfig) (db : List DbRow) (st : RiskState)
       (sig : SignalEvent),
       sig.signal_type = "CLOSE" → sig.price ≠ 0 →
       onSignal cfg db st sig =
         ⟨st, [.order ⟨sig.symbol, "SELL", "MARKET",
            sig.quantity_pct * st.portfolio_value / sig.price⟩], []⟩) ∧
    (∀ (cfg : RiskConfig) (db : List DbRow) (st : RiskState)
       (sig : SignalEvent),
       sig.signal_type = "EXIT" → st.circuit_breaker_active = true →
       onSignal cfg db st sig =
         ⟨st, [.alert .CRITICAL (some .breakerActive)],
          [(.CRITICAL, some .breakerActive)]⟩) := by
  constructor
  · intro cfg db st sig hc hp
    have h1 : ¬ (sig.signal_type = "BUY" ∨ sig.signal_type = "SELL") := by
      rw [hc]; decide
    simp [onSignal, hc, createOrderEvent, hp, h1]
  · intro cfg db st sig he hb
    have hc : sig.signal_type ≠ "CLOSE" := by rw [he]; decide
    simp [onSignal, checkCircuitBreakers, hb, hc]

/-- Witness for `close_only_bypass`: a concrete CLOSE signal is converted
straight into a SELL market order sized from the portfolio value. -/
theorem close_only_bypass_witness :
    ((⟨"BTC/USDT", "CRYPTO", "s1", "CLOSE", 1/2, 50000, 1/20,
        none⟩ : SignalEvent).signal_type = "CLOSE" ∧
      (⟨"BTC/USDT", "CRYPTO", "s1", "CLOSE", 1/2, 50000, 1/20,
        none⟩ : SignalEvent).price ≠ 0) ∧
    onSignal defaultRiskConfig [] ⟨100000, 100000, 100000, true⟩
        ⟨"BTC/USDT", "CRYPTO", "s1", "CLOSE", 1/2, 50000, 1/20, none⟩ =
      ⟨⟨100000, 100000, 100000, true⟩,
       [.order ⟨"BTC/USDT", "SELL", "MARKET", (1/20 : ℚ) * 100000 / 50000⟩],
       []⟩ :=
  ⟨⟨rfl, by norm_num⟩,
   close_only_bypass.1 defaultRiskConfig [] _ _ rfl (by norm_num)⟩

/-- C5 counterexample: a BUY signal with reference price `0` and a stop
present makes `_check_position_risk` raise `ZeroDivisionError`; the
rejection publishes a HIGH alert but `_log_risk_event` is never called,
so the rejection is not persisted — the risk-event log stays empty. -/
theorem exception_reject_unlogged_cex :
    onSignal defaultRiskConfig [] ⟨100000, 100000, 100000, false⟩
        ⟨"BTC/USDT", "CRYPTO", "s1", "BUY", 1/2, 0, 1/20, some 10⟩ =
      ⟨⟨100000, 100000, 100000, false⟩,
       [.alert .HIGH (some .processingError)], []⟩ := by
  norm_num [onSignal, checkCircuitBreakers, checkPositionRisk,
    defaultRiskConfig, show ¬ ("BUY" : String) = "CLOSE" from by decide]

/-- C5 amended: each processed non-CLOSE signal publishes exactly one
event — an order when all four checks pass, otherwise a single alert
whose severity is CRITICAL for a circuit-breaker failure, HIGH for a
position-level failure, MEDIUM for a symbol- or portfolio-level failure,
with the checks run in that order and short-circuiting; rejections from
the four checks are persisted to the risk-event log, while a rejection
caused by an internal exception publishes a HIGH alert but is not
persisted. -/
theorem rejection_severity_and_audit :
    ∀ (cfg : RiskConfig) (db : List DbRow) (st : RiskState)
      (sig : SignalEvent), sig.signal_type ≠ "CLOSE" →
    (onSignal cfg db st sig).published.length = 1 ∧
    ((checkCircuitBreakers cfg st).2.1 = false →
      onSignal cfg db st sig =
        ⟨(checkCircuitBreakers cfg st).1,
         [.alert .CRITICAL (checkCircuitBreakers cfg st).2.2],
         [(.CRITICAL, (checkCircuitBreakers cfg st).2.2)]⟩) ∧
    ((checkCircuitBreakers cfg st).2.1 = true →
      checkPositionRisk cfg sig = .error () →
      onSignal cfg db st sig =
        ⟨(checkCircuitBreakers cfg st).1,
         [.alert .HIGH (some .processingError)], []⟩) ∧
    (∀ r, (checkCircuitBreakers cfg st).2.1 = true →
      checkPositionRisk cfg sig = .ok (false, r) →
      onSignal cfg db st sig =
        ⟨(checkCircuitBreakers cfg st).1, [.alert .HIGH r], [(.HIGH, r)]⟩) ∧
    (∀ r1 r2, (checkCircuitBreakers cfg st).2.1 = true →
      checkPositionRisk cfg sig = .ok (true, r1) →
      checkSymbolRisk cfg (checkCircuitBreakers cfg st).1.portfolio_value db
          sig.symbol
          (sig.quantity_pct * (checkCircuitBreakers cfg st).1.portfolio_value)
        = (false, r2) →
      onSignal cfg db st sig =
        ⟨(checkCircuitBreakers cfg st).1, [.alert .MEDIUM r2],
         [(.MEDIUM, r2)]⟩) ∧
    (∀ r1 r2 r3, (checkCircuitBreakers cfg st).2.1 = true →
      checkPositionRisk cfg sig = .ok (true, r1) →
      checkSymbolRisk cfg (checkCircuitBreakers cfg st).1.portfolio_value db
          sig.symbol
          (sig.quantity_pct * (checkCircuitBreakers cfg st).1.portfolio_value)
        = (true, r2) →
      checkPortfolioRisk cfg (checkCircuitBreakers cfg st).1.portfolio_value
          db
          (sig.quantity_pct * (checkCircuitBreakers cfg st).1.portfolio_value)
        = (false, r3) →
      onSignal cfg db st sig =
        ⟨(checkCircuitBreakers cfg st).1, [.alert .MEDIUM r3],
         [(.MEDIUM, r3)]⟩) ∧
    (∀ r1 r2 r3 o, (checkCircuitBreakers cfg st).2.1 = true →
      checkPositionRisk cfg sig = .ok (true, r1) →
      checkSymbolRisk cfg (checkCircuitBreakers cfg st).1.portfolio_value db
          sig.symbol
          (sig.quantity_pct * (checkCircuitBreakers cfg st).1.portfolio_value)
        = (true, r2) →
      checkPortfolioRisk cfg (checkCircuitBreakers cfg st).1.portfolio_value
          db
          (sig.quantity_pct * (checkCircuitBreakers cfg st).1.portfolio_value)
        = (true, r3) →
      createOrderEvent (checkCircuitBreakers cfg st).1 sig = .ok o →
      onSignal cfg db st sig =
        ⟨(checkCircuitBreakers cfg st).1, [.order o], []⟩) := by
  intro cfg db st sig hc
  refine ⟨onSignal_publishes_one cfg db st sig, ?_, ?_, ?_, ?_, ?_, ?_⟩
  · intro h1
    simp [onSignal, hc, h1]
  · intro h1 h2
    simp [onSignal, hc, h1, h2]
  · intro r h1 h2
    simp [onSignal, hc, h1, h2]
  · intro r1 r2 h1 h2 h3
    simp [onSignal, hc, h1, h2, h3]
  · intro r1 r2 r3 h1 h2 h3 h4
    simp [onSignal, hc, h1, h2, h3, h4]
  · intro r1 r2 r3 o h1 h2 h3 h4 h5
    simp [onSignal, hc, h1, h2, h3, h4, h5]

/-- Witness for `rejection_severity_and_audit`: a concrete oversized BUY
signal is rejected at the position level with a HIGH alert that is
persisted. -/
theorem rejection_severity_witness :
    ((⟨"BTC/USDT", "CRYPTO", "s1", "BUY", 1/2, 50000, 1/2,
        some 49000⟩ : SignalEvent).signal_type ≠ "CLOSE") ∧
    (onSignal defaultRiskConfig [] ⟨100000, 100000, 100000, false⟩
      ⟨"BTC/USDT", "CRYPTO", "s1", "BUY", 1/2, 50000, 1/2,
        some 49000⟩).published.length = 1 :=
  ⟨by decide,
   (rejection_severity_and_audit defaultRiskConfig []
     ⟨100000, 100000, 100000, false⟩
     ⟨"BTC/USDT", "CRYPTO", "s1", "BUY", 1/2, 50000, 1/2, some 49000⟩
     (by decide)).1⟩

/-- C9: the symbol-level risk decision depends on the existing open rows
of the symbol only through the sum of `quantity * entry_price`: two
databases whose rows for the symbol carry the same total notional — one
position or several — produce the identical check outcome. -/
theorem symbol_exposure_sum_invariant :
    ∀ (cfg : RiskConfig) (pv new_exposure : ℚ) (symbol : String)
      (db1 db2 : List DbRow),
      symbolExposureSum db1 symbol = symbolExposureSum db2 symbol →
      checkSymbolRisk cfg pv db1 symbol new_exposure =
        checkSymbolRisk cfg pv db2 symbol new_exposure := by
  intro cfg pv ne s db1 db2 h
  unfold checkSymbolRisk
  rw [h]

/-- Witness for `symbol_exposure_sum_invariant`: one 10-notional position
versus two positions totalling 10 give the same decision. -/
theorem symbol_exposure_sum_witness :
    symbolExposureSum [⟨"BTC/USDT", 2, 5⟩] "BTC/USDT" =
      symbolExposureSum [⟨"BTC/USDT", 1, 4⟩, ⟨"BTC/USDT", 2, 3⟩]
        "BTC/USDT" ∧
    checkSymbolRisk defaultRiskConfig 100000 [⟨"BTC/USDT", 2, 5⟩]
        "BTC/USDT" 1000 =
      checkSymbolRisk defaultRiskConfig 100000
        [⟨"BTC/USDT", 1, 4⟩, ⟨"BTC/USDT", 2, 3⟩] "BTC/USDT" 1000 :=
  ⟨by norm_num [symbolExposureSum, List.filter],
   symbol_exposure_sum_invariant defaultRiskConfig 100000 1000 "BTC/USDT"
     _ _ (by norm_num [symbolExposureSum, List.filter])⟩

/-- Publishing a batch appends it to the queue in order. -/
lemma publishAll_queue (es : List BusEvent) :
    ∀ s : BusState, (publishAll s es).queue = s.queue ++ es := by
  induction es with
  | nil => intro s; simp [publishAll]
  | cons e rest ih =>
    intro s
    have : publishAll s (e :: rest) = publishAll (publish s e) rest := rfl
    rw [this, ih]
    simp [publish]

/-- Dispatching one event appends exactly the handler-published events to
the queue. -/
lemma runHandlers_queue (e : BusEvent) :
    ∀ (hs : List (BusEvent → List BusEvent × Bool)) (s : BusState),
      (runHandlers e hs s).1.queue = s.queue ++ (runHandlers e hs s).2 := by
  intro hs
  induction hs with
  | nil => intro s; simp [runHandlers]
  | cons h rest ih =>
    intro s
    simp only [runHandlers]
    rw [ih, publishAll_queue]
    simp

/-- The same, at the `dispatchEvent` wrapper. -/
lemma dispatchEvent_queue (subs : List Subscriber) (s : BusState)
    (e : BusEvent) :
    (dispatchEvent subs s e).1.queue =
      s.queue ++ (dispatchEvent subs s e).2 := by
  unfold dispatchEvent
  exact runHandlers_queue e _ s

/-- The same subscribers with all exception flags cleared. -/
def clearRaise (subs : List Subscriber) : List Subscriber :=
  subs.map (fun p => (p.1, fun e => ((p.2 e).1, false)))

/-- Running handlers ignores the caught exception flag. -/
lemma runHandlers_clear (e : BusEvent) :
    ∀ (hs : List (BusEvent → List BusEvent × Bool)) (s : BusState),
      runHandlers e (hs.map (fun h => fun ev => ((h ev).1, false))) s =
        runHandlers e hs s := by
  intro hs
  induction hs with
  | nil => intro s; rfl
  | cons h rest ih =>
    intro s
    simp only [List.map, runHandlers]
    rw [ih]

/-- Clearing the exception flags commutes with selecting the handlers of
one event type. -/
lemma clearRaise_filter (et : ℕ) :
    ∀ subs : List Subscriber,
      ((clearRaise subs).filter (fun p => p.1 = et)).map Prod.snd =
        ((subs.filter (fun p => p.1 = et)).map Prod.snd).map
          (fun h => fun ev => ((h ev).1, false)) := by
  intro subs
  induction subs with
  | nil => rfl
  | cons p rest ih =>
    by_cases hp : p.1 = et
    · simp only [clearRaise, List.map, List.filter, hp]
      simpa [clearRaise] using ih
    · simp only [clearRaise, List.map, List.filter, hp]
      simpa [clearRaise] using ih

/-- Dispatching one event ignores the caught exception flags. -/
lemma dispatchEvent_clear (subs : List Subscriber) (s : BusState)
    (e : BusEvent) :
    dispatchEvent (clearRaise subs) s e = dispatchEvent subs s e := by
  unfold dispatchEvent
  rw [clearRaise_filter]
  exact runHandlers_clear e _ s

/-- C6: `publish` only appends to the queue (and, in backtest mode, to
the history) without invoking any handler; the drain dispatches in FIFO
order of publication and only stops when the queue is empty, so that
handler-published cascade events are dispatched before it returns; and
caught handler exceptions change nothing about the dispatch of the
remaining handlers and events. -/
theorem event_bus_fifo_drain :
    (∀ (s : BusState) (e : BusEvent), (publish s e).queue = s.queue ++ [e]) ∧
    (∀ (s : BusState) (e : BusEvent) (h : List BusEvent),
      s.history = some h → (publish s e).history = some (h ++ [e])) ∧
    (∀ (s : BusState) (e : BusEvent),
      s.history = none → (publish s e).history = none) ∧
    (∀ (subs : List Subscriber) (fuel : ℕ) (s : BusState),
      (processEvents subs fuel s).2.1 ++ (processEvents subs fuel s).1.queue
        = s.queue ++ (processEvents subs fuel s).2.2) ∧
    (∀ (subs : List Subscriber) (fuel : ℕ) (s : BusState),
      (processEvents subs fuel s).1.queue ≠ [] →
      (processEvents subs fuel s).2.1.length = fuel) ∧
    (∀ (subs : List Subscriber) (fuel : ℕ) (s : BusState),
      processEvents (clearRaise subs) fuel s = processEvents subs fuel s) := by
  refine ⟨fun s e => rfl, ?_, ?_, ?_, ?_, ?_⟩
  · intro s e h hh
    simp [publish, hh]
  · intro s e hh
    simp [publish, hh]
  · intro subs fuel
    induction fuel with
    | zero => intro s; simp [processEvents]
    | succ n ih =>
      intro s
      rcases hq : s.queue with _ | ⟨e, rest⟩
      · simp [processEvents, hq]
      · simp only [processEvents, hq]
        rw [List.cons_append, ih, dispatchEvent_queue]
        simp [hq]
  · intro subs fuel
    induction fuel with
    | zero => intro s h; rfl
    | succ n ih =>
      intro s h
      rcases hq : s.queue with _ | ⟨e, rest⟩
      · exfalso
        apply h
        simp [processEvents, hq]
      · have hrec := ih (dispatchEvent subs { s with queue := rest } e).1
        simp only [processEvents, hq] at h ⊢
        rw [List.length_cons, hrec h]
  · intro subs fuel
    induction fuel with
    | zero => intro s; rfl
    | succ n ih =>
      intro s
      rcases hq : s.queue with _ | ⟨e, rest⟩
      · simp [processEvents, hq]
      · simp only [processEvents, hq]
        rw [dispatchEvent_clear, ih]

/-- Witness for `event_bus_fifo_drain`: publishing to a backtest-mode bus
with empty history records the event. -/
theorem event_bus_fifo_drain_witness :
    (⟨[], some []⟩ : BusState).history = some [] ∧
    (publish ⟨[], some []⟩ ⟨0, 7⟩).history = some ([] ++ [⟨0, 7⟩]) :=
  ⟨rfl, event_bus_fifo_drain.2.1 ⟨[], some []⟩ ⟨0, 7⟩ [] rfl⟩

/-- The six-point equity curve of the spec's drawdown test case, on
consecutive days d0..d5. -/
def ddExampleCurve : List (ℕ × ℚ) :=
  [(0, 100000), (1, 95000), (2, 90000), (3, 95000), (4, 100000), (5, 105000)]

/-- C7 counterexample: on the spec's 100k → 90k → 105k curve the maximum
drawdown is indeed -10%, but the reported duration is `4` days — pandas
`idxmax` finds the *peak* at d0 and the recovery at d4 — not the `2`
days from the trough d2 to d4 that the claim states. -/
theorem drawdown_duration_cex :
    (maxDrawdown ddExampleCurve).1 = -1/10 ∧
    (maxDrawdown ddExampleCurve).2.2 ≠ 2 := by
  have h : maxDrawdown ddExampleCurve = (-1/10, -10000, 4) := by
    norm_num [maxDrawdown, ddExampleCurve, runningMax,
      runningMaxAux, drawdownPctSeries, drawdownSeries,
      listMinD, listMaxD, List.zip, List.zipWith, List.map, List.filter,
      List.find?, List.foldl, min_def, max_def]
  rw [h]
  norm_num

/-- C7 amended: max drawdown is -10.00% (dollar trough -10000), and the
reported max-drawdown duration is the days from the prior peak d0 to the
recovery d4, i.e. 4 days. -/
theorem drawdown_peak_to_recovery :
    maxDrawdown ddExampleCurve = (-1/10, -10000, 4) ∧
    (calcDrawdownMetrics ddExampleCurve).max_drawdown_pct = -1/10 ∧
    (calcDrawdownMetrics ddExampleCurve).max_dd_duration_days = 4 := by
  have h : maxDrawdown ddExampleCurve = (-1/10, -10000, 4) := by
    norm_num [maxDrawdown, ddExampleCurve, runningMax,
      runningMaxAux, drawdownPctSeries, drawdownSeries,
      listMinD, listMaxD, List.zip, List.zipWith, List.map, List.filter,
      List.find?, List.foldl, min_def, max_def]
  exact ⟨h, by rw [calcDrawdownMetrics, h], by rw [calcDrawdownMetrics, h]⟩

/-- C8: the calculator is total on degenerate input: an equity curve with
fewer than 2 points makes `calculate_all` return the all-zero metrics
dictionary, and zero closed trades make the trade-statistics block the
all-zero trade metrics. -/
theorem degenerate_metrics_zero :
    (∀ (prims : NumPrims) (curve : List (ℕ × ℚ)) (trades : List TradeRec)
       (initial_capital : ℚ) (start_date end_date : ℕ)
       (risk_free_rate : ℚ), curve.length < 2 →
       calculateAll prims curve trades initial_capital start_date end_date
         risk_free_rate = emptyMetrics) ∧
    (∀ trades : List TradeRec,
       trades.filter (fun t => t.status = "CLOSED") = [] →
       calcTradeStats trades = zeroTradeStats) := by
  constructor
  · intro prims curve trades ic sd ed rf h
    simp [calculateAll, h]
  · intro trades h
    simp [calcTradeStats, h]

/-- Witness for `degenerate_metrics_zero`: the empty curve and a list
with one OPEN (hence zero CLOSED) trade. -/
theorem degenerate_metrics_witness :
    (([] : List (ℕ × ℚ)).length < 2 ∧
      ([⟨"OPEN", 5, none, none⟩] : List TradeRec).filter
        (fun t => t.status = "CLOSED") = []) ∧
    calculateAll ⟨id, fun x _ => x, id⟩ [] [] 100000 0 5 (3/100) =
      emptyMetrics ∧
    calcTradeStats [⟨"OPEN", 5, none, none⟩] = zeroTradeStats :=
  ⟨⟨by decide, by simp [List.filter]⟩,
   degenerate_metrics_zero.1 ⟨id, fun x _ => x, id⟩ [] [] 100000 0 5
     (3/100) (by decide),
   degenerate_metrics_zero.2 [⟨"OPEN", 5, none, none⟩]
     (by simp [List.filter])⟩

end QuantSage
